import Mathlib

/-!
Verification of ml4tc (NOAA-GSL) auxiliary tooling against its
natural-language specification.

The embedding models:
* `ml4tc/scripts/match_cnn_predictions_to_ships.py` — `_match_examples`,
  the nearest-neighbor join of CNN prediction records to SHIPS prediction
  records (exact timestamp equality, planar distance in two longitude
  conventions, fixed distance threshold `MAX_DISTANCE_DEG = 1`);
* `ml4tc/io/satellite_io.py` — `find_file`, `find_cyclones`,
  `file_name_to_cyclone_id`;
* `ml4tc/plotting/satellite_plotting.py` — `_grid_points_to_edges`, the
  input-validation prefix of `plot_2d_grid_regular`, and the contour-bound
  clamping in `plot_saliency` / `plot_class_activation`.

Real-valued data (latitudes, longitudes, temperatures) is modelled over ℚ.
The source computes Euclidean distances with `numpy.sqrt`; since square
root is strictly monotone on nonnegative reals, every comparison the
source makes between distances (elementwise minimum, array minimum,
argmin, threshold test against `MAX_DISTANCE_DEG`) is equivalent to the
same comparison between squared distances with threshold
`MAX_DISTANCE_DEG ^ 2`.  The embedding therefore carries squared
distances; theorems that speak about the actual (root) distances cast to
ℝ and apply `Real.sqrt` in their statements.
-/

deriving instance DecidableEq for Except

namespace Ml4tc

/-- One prediction record: init time (unix seconds), storm latitude and
longitude (degrees).  The source holds these in parallel columnar numpy
arrays (`INIT_TIMES_KEY`, `STORM_LATITUDES_KEY` / `INIT_LATITUDES_KEY`,
`STORM_LONGITUDES_KEY` / `INIT_LONGITUDES_KEY`); the embedding zips the
parallel arrays into one list of records. -/
structure Example where
  initTime : ℤ
  latitude : ℚ
  longitude : ℚ
deriving DecidableEq, Repr

instance : Inhabited Example := ⟨⟨0, 0, 0⟩⟩

/-- Modelled from the spec: `gewittergefahr.gg_utils.longitude_conversion.
convert_lng_positive_in_west` (external dependency, not under `src/`):
the positive-in-west convention expresses western-hemisphere longitudes
as positive values in 180..360, i.e. negative longitudes get 360 added. -/
def convert_lng_positive_in_west (lng : ℚ) : ℚ :=
  if lng < 0 then lng + 360 else lng

/-- Modelled from the spec: `gewittergefahr.gg_utils.longitude_conversion.
convert_lng_negative_in_west` (external dependency, not under `src/`):
the negative-in-west convention expresses western-hemisphere longitudes
as negative values in -180..0, i.e. longitudes above 180 get 360
subtracted. -/
def convert_lng_negative_in_west (lng : ℚ) : ℚ :=
  if 180 < lng then lng - 360 else lng

/-- `MAX_DISTANCE_DEG = 1.` from
`ml4tc/scripts/match_cnn_predictions_to_ships.py`, line 10. -/
def MAX_DISTANCE_DEG : ℚ := 1

/-- Squared planar distance `dlat^2 + dlng^2` between two points.  The
source computes `numpy.sqrt` of this; the embedding keeps the square
(see the file comment). -/
def distSq (lat1 lng1 lat2 lng2 : ℚ) : ℚ :=
  (lat1 - lat2) ^ 2 + (lng1 - lng2) ^ 2

/-- Squared candidate distance between a CNN record `c` and a SHIPS record
`s`: the elementwise minimum (`numpy.minimum`) of the squared distance
with both longitudes in the positive-in-west convention
(`first_distances_deg`) and the squared distance with both longitudes in
the negative-in-west convention (`second_distances_deg`),
`_match_examples` lines 109-119.  `numpy.minimum (sqrt a) (sqrt b) =
sqrt (min a b)`, so the square of the source's candidate distance is
exactly this value. -/
def candDistSq (c s : Example) : ℚ :=
  min
    (distSq c.latitude (convert_lng_positive_in_west c.longitude)
      s.latitude (convert_lng_positive_in_west s.longitude))
    (distSq c.latitude (convert_lng_negative_in_west c.longitude)
      s.latitude (convert_lng_negative_in_west s.longitude))

/-- `js = numpy.where(ships_init_times_unix_sec == cnn_init_times_unix_sec[i])[0]`
(`_match_examples` lines 102-104): the indices of the SHIPS records whose
init time equals `t`, in increasing order. -/
def candidateIndices (t : ℤ) (ships : List Example) : List Nat :=
  (List.range ships.length).filter fun j =>
    decide ((ships.getD j default).initTime = t)

/-- `numpy.min` of a nonempty array (the `[]` case is unreachable in the
source: `_match_examples` guards `len(js) == 0` first). -/
def minimumD (l : List ℚ) : ℚ := l.min?.getD 0

/-- `numpy.argmin`: index of the first occurrence of the minimum value. -/
def argminFirst (l : List ℚ) : Nat :=
  l.findIdx fun v => decide (v = minimumD l)

/-- `these_distances_deg` (squared): the candidate distances from CNN
record `c` to the SHIPS records at the candidate indices, in candidate
order (`_match_examples` lines 109-119). -/
def candDists (c : Example) (ships : List Example) : List ℚ :=
  (candidateIndices c.initTime ships).map fun j =>
    candDistSq c (ships.getD j default)

/-- Loop body of `_match_examples` (lines 101-124) for one CNN record `c`:
collect the SHIPS indices with the same init time; if none, record no
match (`cnn_to_ships_indices[i]` stays `-1`, modelled `none`); otherwise
compute the candidate distances, and if the minimum exceeds
`MAX_DISTANCE_DEG` record no match, else record
`js[numpy.argmin(these_distances_deg)]`.  Distances are carried squared,
and the threshold squared, per the file comment. -/
def matchOneExample (c : Example) (ships : List Example) : Option Nat :=
  let js := candidateIndices c.initTime ships
  if js.isEmpty then none
  else
    let dists := candDists c ships
    if MAX_DISTANCE_DEG ^ 2 < minimumD dists then none
    else some (js.getD (argminFirst dists) 0)

/-- `_match_examples` (lines 98-133): run the loop body for every CNN
record (`cnn_to_ships_indices`), then
`cnn_indices = numpy.where(cnn_to_ships_indices >= 0)[0]` and
`ships_indices = cnn_to_ships_indices[cnn_indices]`. -/
def matchExamples (cnn ships : List Example) : List Nat × List Nat :=
  let ms := cnn.map fun c => matchOneExample c ships
  let cnnIndices :=
    (List.range cnn.length).filter fun i => (ms.getD i none).isSome
  let shipsIndices := cnnIndices.map fun i => (ms.getD i none).getD 0
  (cnnIndices, shipsIndices)

example :
    matchExamples [⟨0, 10, 20⟩, ⟨5, 0, 0⟩] [⟨0, 10, (21 : ℚ)/2⟩, ⟨0, 10, 20⟩]
      = ([0], [1]) := by with_unfolding_all decide

example : matchExamples [⟨0, 0, 0⟩] [⟨0, 1, 0⟩] = ([0], [0]) := by
  with_unfolding_all decide

example : matchExamples [⟨0, 0, 0⟩] [⟨0, 2, 0⟩] = ([], []) := by
  with_unfolding_all decide

example : matchExamples [⟨0, 0, 0⟩] [⟨1, 0, 0⟩] = ([], []) := by
  with_unfolding_all decide

example : matchOneExample ⟨0, 0, (-179 : ℚ)⟩ [⟨0, 0, 180⟩] = some 0 := by
  with_unfolding_all decide

/-! ## `ml4tc/io/satellite_io.py`

The filesystem is modelled by an oracle `isFile : String → Bool`
(`os.path.isfile`), the glob result by an explicit list of file names, and
`ml4tc.utils.satellite_utils.parse_cyclone_id` (repository code not under
`src/`, used here only for its succeed/raise behaviour) by an oracle
`parse : String → Bool` (`true` = parses, `false` = raises). -/

/-- The path `'{directory}/cira_satellite_{cyclone_id}.nc'`
(`find_file`, lines 39-42, with the empty format suffix). -/
def satellite_file_base (directory_name cyclone_id_string : String) : String :=
  directory_name ++ "/cira_satellite_" ++ cyclone_id_string ++ ".nc"

/-- The path `'{directory}/cira_satellite_{cyclone_id}.nc{suffix}'` where
the suffix is `GZIP_FILE_EXTENSION = '.gz'` if `zipped` else `''`. -/
def satellite_file_path (directory_name cyclone_id_string : String)
    (zipped : Bool) : String :=
  if zipped then satellite_file_base directory_name cyclone_id_string ++ ".gz"
  else satellite_file_base directory_name cyclone_id_string

/-- `satellite_io.find_file` (lines 14-61).  The validation preamble
(lines 33-37) only type-checks the booleans and calls
`parse_cyclone_id`, modelled by the `parse` oracle; a parse failure
raises there.  Then: build the preferred-format path; return it if it is
a file; otherwise, when `allow_other_format`, switch to the opposite
format (stripping `'.gz'` yields exactly `satellite_file_base`);
return the (possibly switched) path if it is a file or
`raise_error_if_missing` is false; otherwise raise `ValueError`. -/
def find_file (isFile parse : String → Bool)
    (directory_name cyclone_id_string : String)
    (prefer_zipped allow_other_format raise_error_if_missing : Bool) :
    Except String String :=
  if !parse cyclone_id_string then
    .error "invalid cyclone ID"
  else
    let name1 :=
      satellite_file_path directory_name cyclone_id_string prefer_zipped
    if isFile name1 then .ok name1
    else
      let name2 :=
        if allow_other_format then
          if prefer_zipped then satellite_file_base directory_name
            cyclone_id_string
          else name1 ++ ".gz"
        else name1
      if isFile name2 || !raise_error_if_missing then .ok name2
      else .error ("Cannot find file.  Expected at: " ++ name2)

/-- `os.path.split(...)[1]` on a character list: the part after the last
`'/'`. -/
def afterLastSlash (l : List Char) : List Char :=
  (l.reverse.takeWhile fun c => decide (c ≠ '/')).reverse

/-- `s.split('.')[0]` on a character list: the part before the first
`'.'` (the whole string if there is no dot). -/
def upToFirstDot (l : List Char) : List Char :=
  l.takeWhile fun c => decide (c ≠ '.')

/-- `s.split('_')[-1]` on a character list: the part after the last
`'_'` (the whole string if there is no underscore). -/
def afterLastUnderscore (l : List Char) : List Char :=
  (l.reverse.takeWhile fun c => decide (c ≠ '_')).reverse

/-- `satellite_io.file_name_to_cyclone_id` (lines 110-123): take the
pathless file name, the part before its first `'.'`, the part after the
last `'_'`, and validate it with `parse_cyclone_id` (the `parse`
oracle); `none` models the raise. -/
def file_name_to_cyclone_id (parse : String → Bool) (fileName : String) :
    Option String :=
  let pathless := String.mk (afterLastSlash fileName.data)
  let cycloneId := String.mk (afterLastUnderscore (upToFirstDot pathless.data))
  if parse cycloneId then some cycloneId else none

/-- `satellite_io.find_cyclones` (lines 64-107).  `globbedFileNames` is
the combined glob result for the unzipped and zipped patterns.  Each file
name is parsed with `file_name_to_cyclone_id` inside `try: ... except:
pass`, so parse failures are dropped (`List.filterMap`); the ids are
deduplicated (`list(set(...))`) and sorted; `ValueError` is raised iff
the final list is empty and `raise_error_if_all_missing`. -/
def find_cyclones (parse : String → Bool) (globbedFileNames : List String)
    (raise_error_if_all_missing : Bool) : Except String (List String) :=
  let ids := globbedFileNames.filterMap (file_name_to_cyclone_id parse)
  let sortedIds := List.insertionSort (· ≤ ·) ids.dedup
  if raise_error_if_all_missing && sortedIds.isEmpty then
    .error "Could not find any cyclone IDs from files with pattern"
  else .ok sortedIds

/-! ## `ml4tc/plotting/satellite_plotting.py` -/

/-- `TOLERANCE = 1e-6` (line 13). -/
def TOLERANCE : ℚ := 1 / 1000000

/-- `_grid_points_to_edges` (lines 23-44) over a length-`P` coordinate
list: `(p[:-1] + p[1:]) / 2` (the `P - 1` consecutive midpoints),
prepended with `p[0] - diff(p[:2]) / 2` and appended with
`p[-1] + diff(p[-2:]) / 2`.  For `P ≥ 2` the `diff` slices have length
1, so these are the one-element lists below; for `P = 1` both `diff`
slices are empty and numpy broadcasting makes both end pieces empty, so
the result is the empty array (hence the `if`s).  For `P = 0` the source
raises `IndexError` at `grid_point_coords[0]`; the claims do not cover
that case (this embedding returns `[]` there). -/
def gridPointsToEdges (p : List ℚ) : List ℚ :=
  let mids := (List.range (p.length - 1)).map fun k =>
    (p.getD k 0 + p.getD (k + 1) 0) / 2
  let firstEdge :=
    if 2 ≤ p.length then [p.getD 0 0 - (p.getD 1 0 - p.getD 0 0) / 2] else []
  let lastEdge :=
    if 2 ≤ p.length then
      [p.getD (p.length - 1) 0 +
        (p.getD (p.length - 1) 0 - p.getD (p.length - 2) 0) / 2]
    else []
  firstEdge ++ mids ++ lastEdge

example : gridPointsToEdges [0, 1, 2] = [-(1/2), 1/2, 3/2, 5/2] := by
  with_unfolding_all decide

example : gridPointsToEdges [5] = [] := by with_unfolding_all decide

/-- Which input-validation assertion of `plot_2d_grid_regular` fired. -/
inductive PlotCheckError where
  | invalidLatitudes
  | latitudesNotIncreasing
  | longitudesNotIncreasing
  | badShape
  | nonPositiveTemperatures
deriving DecidableEq, Repr

/-- `assert_is_valid_lat_numpy_array`: every latitude lies in
`[-90, 90]` (external `gewittergefahr` check, modelled from its name and
use). -/
def validLatitudes (l : List ℚ) : Bool :=
  l.all fun x => decide (-90 ≤ x) && decide (x ≤ 90)

/-- `assert_is_greater_numpy_array(numpy.diff(l), 0.)`: every difference
of consecutive entries is positive, i.e. `l` is strictly increasing.
`numpy.diff` of a length-`P` array is the length-`(P-1)` array of
consecutive differences, exactly the pairs `l.zip l.tail`. -/
def strictlyIncreasing (l : List ℚ) : Bool :=
  (l.zip l.tail).all fun q => decide (q.1 < q.2)

/-- The shape check of `plot_2d_grid_regular` (lines 183-189): the
brightness-temperature matrix must have exactly
`len(latitudes)` rows and `len(longitudes)` columns.  The matrix is
modelled row-major; shape `(M, N)` means `M` rows, each of length `N`. -/
def matrixShapeOk (brightness_temp_matrix : List (List ℚ))
    (latitudes longitudes : List ℚ) : Bool :=
  (brightness_temp_matrix.length == latitudes.length) &&
    brightness_temp_matrix.all fun row => row.length == longitudes.length

/-- The input-validation prefix of `plot_2d_grid_regular` (lines
169-192), in source order: latitudes must be valid latitudes and
strictly increasing; longitudes, after conversion to the
negative-in-west convention, must be strictly increasing; the
brightness-temperature matrix must have exactly
`len(latitudes) × len(longitudes)` shape; its entries must be positive
(`assert_is_greater_numpy_array(..., 0., allow_nan=True)`; ℚ has no NaN,
so the NaN allowance is vacuous here). -/
def plot_2d_grid_regular_checks (brightness_temp_matrix : List (List ℚ))
    (latitudes longitudes : List ℚ) : Except PlotCheckError Unit :=
  if !validLatitudes latitudes then
    .error .invalidLatitudes
  else if !strictlyIncreasing latitudes then
    .error .latitudesNotIncreasing
  else if !strictlyIncreasing
      (longitudes.map convert_lng_negative_in_west) then
    .error .longitudesNotIncreasing
  else if !matrixShapeOk brightness_temp_matrix latitudes longitudes then
    .error .badShape
  else if !(brightness_temp_matrix.all fun row =>
      row.all fun x => decide (0 < x)) then
    .error .nonPositiveTemperatures
  else .ok ()

example : plot_2d_grid_regular_checks [[200, 210], [220, 230]] [0, 1] [10, 11]
    = .ok () := by with_unfolding_all decide

example : plot_2d_grid_regular_checks [[200, 210]] [0, 1] [10, 11]
    = .error .badShape := by with_unfolding_all decide

/-- The contour-bound clamping in `plot_saliency` (lines 285-288):
`min_abs_contour_value = max([min_abs_contour_value, TOLERANCE])`, then
`max_abs_contour_value = max([max_abs_contour_value,
min_abs_contour_value + TOLERANCE])`; the pair is what the function
returns (unchanged afterwards). -/
def plot_saliency_contour_bounds (min_abs_contour_value
    max_abs_contour_value : ℚ) : ℚ × ℚ :=
  let newMin := max min_abs_contour_value TOLERANCE
  (newMin, max max_abs_contour_value (newMin + TOLERANCE))

/-- The contour-bound clamping in `plot_class_activation` (lines
373-374): `min_contour_value = max([min_contour_value, TOLERANCE])`,
then `max_contour_value = max([max_contour_value, min_contour_value +
TOLERANCE])`; the pair is what the function returns. -/
def plot_class_activation_contour_bounds (min_contour_value
    max_contour_value : ℚ) : ℚ × ℚ :=
  let newMin := max min_contour_value TOLERANCE
  (newMin, max max_contour_value (newMin + TOLERANCE))

example : plot_saliency_contour_bounds (-5) (-7) =
    (1/1000000, 2/1000000) := by
  norm_num [plot_saliency_contour_bounds, TOLERANCE]

example : find_cyclones (fun s => s == "2005AL12")
    ["d/cira_satellite_2005AL12.nc", "d/cira_satellite_2005AL00.nc"] true
    = .ok ["2005AL12"] := by with_unfolding_all decide

example : find_file (fun _ => false) (fun _ => true) "d" "2005AL12"
    true true true = .error
      "Cannot find file.  Expected at: d/cira_satellite_2005AL12.nc" := by
  with_unfolding_all decide

/-! ## Lemmas on `numpy.min` / `numpy.argmin` -/

theorem minimumD_mem {l : List ℚ} (h : l ≠ []) : minimumD l ∈ l := by
  cases l with
  | nil => exact absurd rfl h
  | cons x xs =>
    have hm : (x :: xs).min? = some (xs.foldl min x) := rfl
    have hmem := List.min?_mem (fun a b => min_choice a b) hm
    simpa [minimumD, hm] using hmem

theorem minimumD_le {l : List ℚ} {x : ℚ} (hx : x ∈ l) : minimumD l ≤ x := by
  cases l with
  | nil => cases hx
  | cons a xs =>
    have hm : (a :: xs).min? = some (xs.foldl min a) := rfl
    have hall : ∀ b ∈ a :: xs, xs.foldl min a ≤ b :=
      (List.le_min?_iff (fun a b c => le_min_iff) hm).1 le_rfl
    simpa [minimumD, hm] using hall x hx

theorem argminFirst_lt_length {l : List ℚ} (h : l ≠ []) :
    argminFirst l < l.length := by
  apply List.findIdx_lt_length_of_exists
  exact ⟨minimumD l, minimumD_mem h, by simp⟩

theorem getD_argminFirst {l : List ℚ} (h : l ≠ []) :
    l.getD (argminFirst l) 0 = minimumD l := by
  have hlt := argminFirst_lt_length h
  rw [List.getD_eq_getElem l 0 hlt]
  have h2 := @List.findIdx_getElem ℚ (fun v => decide (v = minimumD l)) l hlt
  simpa using h2

theorem minimumD_lt_of_lt_argminFirst {l : List ℚ} {k : ℕ}
    (hk : k < argminFirst l) (hkl : k < l.length) :
    minimumD l < l.getD k 0 := by
  have hne := @List.not_of_lt_findIdx ℚ (fun v => decide (v = minimumD l)) l
    k hk
  rw [List.getD_eq_getElem l 0 hkl]
  have hmem : l[k] ∈ l := List.getElem_mem hkl
  rcases lt_or_eq_of_le (minimumD_le hmem) with hlt | heq
  · exact hlt
  · exfalso
    simp only [decide_eq_false_iff_not] at hne
    exact hne heq.symm

/-! ## Lemmas on the candidate set and the per-example match -/

theorem mem_candidateIndices {t : ℤ} {ships : List Example} {j : ℕ} :
    j ∈ candidateIndices t ships ↔
      j < ships.length ∧ (ships.getD j default).initTime = t := by
  simp [candidateIndices, List.mem_filter, List.mem_range]

theorem pairwise_candidateIndices (t : ℤ) (ships : List Example) :
    (candidateIndices t ships).Pairwise (· < ·) :=
  (List.pairwise_lt_range ships.length).filter _

theorem candDists_length (c : Example) (ships : List Example) :
    (candDists c ships).length = (candidateIndices c.initTime ships).length :=
  List.length_map _ _

theorem candDists_getD {c : Example} {ships : List Example} {k : ℕ}
    (hk : k < (candidateIndices c.initTime ships).length) :
    (candDists c ships).getD k 0 =
      candDistSq c
        (ships.getD ((candidateIndices c.initTime ships).getD k 0) default) := by
  rw [List.getD_eq_getElem _ _ (by simpa [candDists_length] using hk)]
  rw [List.getD_eq_getElem _ _ hk]
  exact List.getElem_map _

theorem matchOne_eq_some_iff {c : Example} {ships : List Example} {j : ℕ} :
    matchOneExample c ships = some j ↔
      candidateIndices c.initTime ships ≠ [] ∧
        minimumD (candDists c ships) ≤ MAX_DISTANCE_DEG ^ 2 ∧
        j = (candidateIndices c.initTime ships).getD
          (argminFirst (candDists c ships)) 0 := by
  unfold matchOneExample
  by_cases h1 : (candidateIndices c.initTime ships).isEmpty
  · simp only [h1, if_true]
    simp [List.isEmpty_iff.1 h1]
  · simp only [h1]
    by_cases h2 : MAX_DISTANCE_DEG ^ 2 < minimumD (candDists c ships)
    · simp only [h2, if_true, if_false]
      constructor
      · intro h; cases h
      · rintro ⟨-, hle, -⟩; exact absurd h2 (not_lt.2 hle)
    · simp only [h2, if_false]
      have hne : candidateIndices c.initTime ships ≠ [] := by
        simpa [List.isEmpty_iff] using h1
      constructor
      · intro h
        exact ⟨hne, not_lt.1 h2, (Option.some_inj.1 h).symm⟩
      · rintro ⟨-, -, hj⟩
        exact congrArg some hj.symm

theorem candDists_ne_nil {c : Example} {ships : List Example}
    (h : candidateIndices c.initTime ships ≠ []) : candDists c ships ≠ [] := by
  intro hc
  apply h
  have := congrArg List.length hc
  rw [candDists_length] at this
  exact List.length_eq_zero.1 this

theorem matchOne_some_mem {c : Example} {ships : List Example} {j : ℕ}
    (h : matchOneExample c ships = some j) :
    j ∈ candidateIndices c.initTime ships := by
  obtain ⟨hne, -, hj⟩ := matchOne_eq_some_iff.1 h
  have hdne := candDists_ne_nil hne
  have hlt : argminFirst (candDists c ships) <
      (candidateIndices c.initTime ships).length := by
    have := argminFirst_lt_length hdne
    rwa [candDists_length] at this
  rw [hj, List.getD_eq_getElem _ _ hlt]
  exact List.getElem_mem hlt

theorem matchOne_some_distSq {c : Example} {ships : List Example} {j : ℕ}
    (h : matchOneExample c ships = some j) :
    candDistSq c (ships.getD j default) = minimumD (candDists c ships) := by
  obtain ⟨hne, -, hj⟩ := matchOne_eq_some_iff.1 h
  have hdne := candDists_ne_nil hne
  have hlt : argminFirst (candDists c ships) <
      (candidateIndices c.initTime ships).length := by
    have := argminFirst_lt_length hdne
    rwa [candDists_length] at this
  rw [hj, ← candDists_getD hlt, getD_argminFirst hdne]

theorem matchOne_some_dist_le {c : Example} {ships : List Example} {j : ℕ}
    (h : matchOneExample c ships = some j) :
    candDistSq c (ships.getD j default) ≤ MAX_DISTANCE_DEG ^ 2 := by
  obtain ⟨-, hle, -⟩ := matchOne_eq_some_iff.1 h
  rw [matchOne_some_distSq h]
  exact hle

theorem matchOne_some_min {c : Example} {ships : List Example} {j : ℕ}
    (h : matchOneExample c ships = some j) :
    ∀ j' ∈ candidateIndices c.initTime ships,
      candDistSq c (ships.getD j default) ≤
        candDistSq c (ships.getD j' default) := by
  intro j' hj'
  rw [matchOne_some_distSq h]
  obtain ⟨k', hk', hjk'⟩ := List.mem_iff_getElem.1 hj'
  have hk'd : k' < (candDists c ships).length := by
    rwa [candDists_length]
  have hv : (candDists c ships).getD k' 0 =
      candDistSq c (ships.getD j' default) := by
    rw [candDists_getD hk', List.getD_eq_getElem _ _ hk', hjk']
  rw [← hv, List.getD_eq_getElem _ _ hk'd]
  exact minimumD_le (List.getElem_mem hk'd)

theorem matchOne_some_first {c : Example} {ships : List Example} {j : ℕ}
    (h : matchOneExample c ships = some j) :
    ∀ j' ∈ candidateIndices c.initTime ships, j' < j →
      candDistSq c (ships.getD j default) <
        candDistSq c (ships.getD j' default) := by
  intro j' hj' hlt
  obtain ⟨hne, -, hj⟩ := matchOne_eq_some_iff.1 h
  have hdne := candDists_ne_nil hne
  have hklt : argminFirst (candDists c ships) <
      (candidateIndices c.initTime ships).length := by
    have := argminFirst_lt_length hdne
    rwa [candDists_length] at this
  obtain ⟨k', hk', hjk'⟩ := List.mem_iff_getElem.1 hj'
  have hjd : (candidateIndices c.initTime ships).getD k' 0 = j' := by
    rw [List.getD_eq_getElem _ _ hk', hjk']
  -- The position of `j'` among the candidates precedes the argmin position,
  -- because the candidate list is strictly increasing and `j' < j`.
  have hpos : k' < argminFirst (candDists c ships) := by
    by_contra hge
    rcases Nat.lt_or_ge (argminFirst (candDists c ships)) k' with hlt2 | hge2
    · have hmono := List.pairwise_iff_getElem.1
        (pairwise_candidateIndices c.initTime ships) _ _ hklt hk' hlt2
      rw [← List.getD_eq_getElem _ 0 hklt, ← List.getD_eq_getElem _ 0 hk',
        hjd, ← hj] at hmono
      omega
    · have hk'' : k' = argminFirst (candDists c ships) := by omega
      rw [hk''] at hjd
      rw [hj, hjd] at hlt
      omega
  rw [matchOne_some_distSq h]
  have hk'd : k' < (candDists c ships).length := by rwa [candDists_length]
  have hv : (candDists c ships).getD k' 0 =
      candDistSq c (ships.getD j' default) := by
    rw [candDists_getD hk', List.getD_eq_getElem _ _ hk', hjk']
  rw [← hv]
  exact minimumD_lt_of_lt_argminFirst hpos hk'd

theorem matchOne_isSome_iff {c : Example} {ships : List Example} :
    (matchOneExample c ships).isSome ↔
      ∃ j ∈ candidateIndices c.initTime ships,
        candDistSq c (ships.getD j default) ≤ MAX_DISTANCE_DEG ^ 2 := by
  constructor
  · intro h
    obtain ⟨j, hj⟩ := Option.isSome_iff_exists.1 h
    exact ⟨j, matchOne_some_mem hj, matchOne_some_dist_le hj⟩
  · rintro ⟨j, hj, hle⟩
    have hne : candidateIndices c.initTime ships ≠ [] := by
      intro hnil
      rw [hnil] at hj
      cases hj
    obtain ⟨k, hk, hjk⟩ := List.mem_iff_getElem.1 hj
    have hk' : k < (candDists c ships).length := by rwa [candDists_length]
    have hmle : minimumD (candDists c ships) ≤ MAX_DISTANCE_DEG ^ 2 := by
      refine le_trans ?_ hle
      have hv : (candDists c ships).getD k 0 =
          candDistSq c (ships.getD j default) := by
        rw [candDists_getD hk, List.getD_eq_getElem _ _ hk, hjk]
      rw [← hv, List.getD_eq_getElem _ _ hk']
      exact minimumD_le (List.getElem_mem hk')
    rw [Option.isSome_iff_exists]
    refine ⟨(candidateIndices c.initTime ships).getD
      (argminFirst (candDists c ships)) 0, ?_⟩
    exact matchOne_eq_some_iff.2 ⟨hne, hmle, rfl⟩

theorem matchOne_none_of_no_candidates {c : Example} {ships : List Example}
    (h : candidateIndices c.initTime ships = []) :
    matchOneExample c ships = none := by
  unfold matchOneExample
  simp [h]

/-! ## Lemmas on `matchExamples` -/

theorem matchExamples_fst_eq (cnn ships : List Example) :
    (matchExamples cnn ships).1 = (List.range cnn.length).filter
      fun i => (matchOneExample (cnn.getD i default) ships).isSome := by
  unfold matchExamples
  apply List.filter_congr
  intro i hi
  rw [List.mem_range] at hi
  have hmap : (cnn.map fun c => matchOneExample c ships).getD i none
      = matchOneExample (cnn.getD i default) ships := by
    rw [List.getD_eq_getElem _ _ (by simpa using hi), List.getElem_map,
      List.getD_eq_getElem _ _ hi]
  rw [hmap]

theorem matchExamples_snd_eq (cnn ships : List Example) :
    (matchExamples cnn ships).2 = (matchExamples cnn ships).1.map
      fun i => ((cnn.map fun c => matchOneExample c ships).getD i none).getD 0 :=
  rfl

theorem mem_matchExamples_fst {cnn ships : List Example} {i : ℕ} :
    i ∈ (matchExamples cnn ships).1 ↔
      i < cnn.length ∧ (matchOneExample (cnn.getD i default) ships).isSome := by
  rw [matchExamples_fst_eq]
  simp [List.mem_filter, List.mem_range]

theorem matchExamples_snd_length (cnn ships : List Example) :
    (matchExamples cnn ships).2.length = (matchExamples cnn ships).1.length := by
  rw [matchExamples_snd_eq, List.length_map]

theorem matchExamples_fst_length_le (cnn ships : List Example) :
    (matchExamples cnn ships).1.length ≤ cnn.length := by
  rw [matchExamples_fst_eq]
  exact le_trans (List.length_filter_le _ _) (le_of_eq (List.length_range _))

theorem matchExamples_fst_pairwise (cnn ships : List Example) :
    (matchExamples cnn ships).1.Pairwise (· < ·) := by
  rw [matchExamples_fst_eq]
  exact (List.pairwise_lt_range _).filter _

theorem matchExamples_pair {cnn ships : List Example} {k : ℕ}
    (hk : k < (matchExamples cnn ships).1.length) :
    matchOneExample (cnn.getD ((matchExamples cnn ships).1.getD k 0) default)
      ships = some ((matchExamples cnn ships).2.getD k 0) := by
  have hmem : (matchExamples cnn ships).1.getD k 0 ∈
      (matchExamples cnn ships).1 := by
    rw [List.getD_eq_getElem _ _ hk]
    exact List.getElem_mem hk
  obtain ⟨hi, hsome⟩ := mem_matchExamples_fst.1 hmem
  obtain ⟨v, hv⟩ := Option.isSome_iff_exists.1 hsome
  have hk2 : k < (matchExamples cnn ships).2.length := by
    rwa [matchExamples_snd_length]
  have hsnd : (matchExamples cnn ships).2.getD k 0 = v := by
    rw [matchExamples_snd_eq, List.getD_eq_getElem _ _
      (by simpa [matchExamples_snd_eq] using hk2), List.getElem_map]
    have hmap : (cnn.map fun c => matchOneExample c ships).getD
        ((matchExamples cnn ships).1[k]) none
        = matchOneExample (cnn.getD ((matchExamples cnn ships).1[k]) default)
          ships := by
      have hi' : (matchExamples cnn ships).1[k] < cnn.length := by
        rwa [← List.getD_eq_getElem _ 0 hk]
      rw [List.getD_eq_getElem _ _ (by simpa using hi'), List.getElem_map,
        List.getD_eq_getElem _ _ hi']
    rw [hmap, ← List.getD_eq_getElem _ 0 hk, hv]
    rfl
  rw [hsnd, hv]

/-- Square roots commute with binary minima and preserve `≤`, so the
squared-distance comparison in the embedding is equivalent to the source's
root-distance comparison. -/
theorem sqrt_min_mono {a b a' b' : ℚ} (h : min a b ≤ min a' b') :
    min (Real.sqrt (a : ℝ)) (Real.sqrt (b : ℝ)) ≤
      min (Real.sqrt (a' : ℝ)) (Real.sqrt (b' : ℝ)) := by
  have hmono : Monotone Real.sqrt := fun x y hxy => Real.sqrt_le_sqrt hxy
  rw [← hmono.map_min, ← hmono.map_min]
  apply hmono
  rw [← Rat.cast_min, ← Rat.cast_min]
  exact Rat.cast_le.2 h

/-- The root distance is at most `MAX_DISTANCE_DEG` iff the squared
distance is at most `MAX_DISTANCE_DEG ^ 2`. -/
theorem sqrt_min_le_max_iff {a b : ℚ} :
    min (Real.sqrt (a : ℝ)) (Real.sqrt (b : ℝ)) ≤ ((MAX_DISTANCE_DEG : ℚ) : ℝ)
      ↔ min a b ≤ MAX_DISTANCE_DEG ^ 2 := by
  have hmono : Monotone Real.sqrt := fun x y hxy => Real.sqrt_le_sqrt hxy
  rw [← hmono.map_min, ← Rat.cast_min]
  have h1 : ((MAX_DISTANCE_DEG : ℚ) : ℝ) = Real.sqrt 1 := by
    rw [Real.sqrt_one, show (MAX_DISTANCE_DEG : ℚ) = 1 from rfl]
    norm_num
  rw [h1, Real.sqrt_le_sqrt_iff (by norm_num)]
  have h2 : MAX_DISTANCE_DEG ^ 2 = (1 : ℚ) := by norm_num [MAX_DISTANCE_DEG]
  rw [h2]
  exact ⟨fun h => by exact_mod_cast h, fun h => by exact_mod_cast h⟩

/-! ## Claim theorems for `_match_examples` -/

/-- Claim C1: for every CNN example `i`, `_match_examples` pairs `i` with
a SHIPS example `j` only if the SHIPS init time at `j` equals the CNN
init time at `i` exactly (integer equality of unix seconds); if no SHIPS
record shares the exact timestamp, example `i` is left unmatched. -/
theorem claim_C1_exact_timestamp_match (cnn ships : List Example) :
    (∀ k, k < (matchExamples cnn ships).1.length →
      (ships.getD ((matchExamples cnn ships).2.getD k 0) default).initTime =
        (cnn.getD ((matchExamples cnn ships).1.getD k 0) default).initTime) ∧
    (∀ i, i < cnn.length →
      (∀ s ∈ ships, s.initTime ≠ (cnn.getD i default).initTime) →
      i ∉ (matchExamples cnn ships).1) := by
  constructor
  · intro k hk
    have hpair := matchExamples_pair hk
    have hmem := matchOne_some_mem hpair
    exact (mem_candidateIndices.1 hmem).2
  · intro i hi hnone hmem
    obtain ⟨-, hsome⟩ := mem_matchExamples_fst.1 hmem
    have hnil : candidateIndices (cnn.getD i default).initTime ships = [] := by
      apply List.filter_eq_nil_iff.2
      intro j hj
      rw [List.mem_range] at hj
      have hs : ships.getD j default ∈ ships := by
        rw [List.getD_eq_getElem _ _ hj]
        exact List.getElem_mem hj
      simpa using hnone (ships.getD j default) hs
    rw [matchOne_none_of_no_candidates hnil] at hsome
    cases hsome

theorem claim_C1_witness :
    0 ∉ (matchExamples [(⟨0, 0, 0⟩ : Example)] [(⟨1, 0, 0⟩ : Example)]).1 :=
  (claim_C1_exact_timestamp_match [⟨0, 0, 0⟩] [⟨1, 0, 0⟩]).2 0 (by decide)
    (by decide)

/-- Claim C2: for every matched pair `(i, j)` produced by
`_match_examples` and every SHIPS candidate `j'` sharing the timestamp of
CNN example `i`, the chosen `j` minimizes
`min(d_pos, d_neg)`, where `d_pos` is the planar Euclidean distance
`sqrt(dlat^2 + dlon^2)` with both longitudes in the positive-in-west
convention and `d_neg` the same in the negative-in-west convention. -/
theorem claim_C2_nearest_candidate (cnn ships : List Example) (k j' : ℕ)
    (hk : k < (matchExamples cnn ships).1.length)
    (hj' : j' < ships.length)
    (ht : (ships.getD j' default).initTime =
      (cnn.getD ((matchExamples cnn ships).1.getD k 0) default).initTime) :
    min
      (Real.sqrt ((distSq
        (cnn.getD ((matchExamples cnn ships).1.getD k 0) default).latitude
        (convert_lng_positive_in_west
          (cnn.getD ((matchExamples cnn ships).1.getD k 0) default).longitude)
        (ships.getD ((matchExamples cnn ships).2.getD k 0) default).latitude
        (convert_lng_positive_in_west
          (ships.getD ((matchExamples cnn ships).2.getD k 0)
            default).longitude) : ℚ) : ℝ))
      (Real.sqrt ((distSq
        (cnn.getD ((matchExamples cnn ships).1.getD k 0) default).latitude
        (convert_lng_negative_in_west
          (cnn.getD ((matchExamples cnn ships).1.getD k 0) default).longitude)
        (ships.getD ((matchExamples cnn ships).2.getD k 0) default).latitude
        (convert_lng_negative_in_west
          (ships.getD ((matchExamples cnn ships).2.getD k 0)
            default).longitude) : ℚ) : ℝ)) ≤
    min
      (Real.sqrt ((distSq
        (cnn.getD ((matchExamples cnn ships).1.getD k 0) default).latitude
        (convert_lng_positive_in_west
          (cnn.getD ((matchExamples cnn ships).1.getD k 0) default).longitude)
        (ships.getD j' default).latitude
        (convert_lng_positive_in_west
          (ships.getD j' default).longitude) : ℚ) : ℝ))
      (Real.sqrt ((distSq
        (cnn.getD ((matchExamples cnn ships).1.getD k 0) default).latitude
        (convert_lng_negative_in_west
          (cnn.getD ((matchExamples cnn ships).1.getD k 0) default).longitude)
        (ships.getD j' default).latitude
        (convert_lng_negative_in_west
          (ships.getD j' default).longitude) : ℚ) : ℝ)) := by
  have hpair := matchExamples_pair hk
  have hmin := matchOne_some_min hpair j' (mem_candidateIndices.2 ⟨hj', ht⟩)
  exact sqrt_min_mono hmin

theorem claim_C2_witness :
    min
      (Real.sqrt ((distSq 0 (convert_lng_positive_in_west 0) 0
        (convert_lng_positive_in_west 0) : ℚ) : ℝ))
      (Real.sqrt ((distSq 0 (convert_lng_negative_in_west 0) 0
        (convert_lng_negative_in_west 0) : ℚ) : ℝ)) ≤
    min
      (Real.sqrt ((distSq 0 (convert_lng_positive_in_west 0) 1
        (convert_lng_positive_in_west 0) : ℚ) : ℝ))
      (Real.sqrt ((distSq 0 (convert_lng_negative_in_west 0) 1
        (convert_lng_negative_in_west 0) : ℚ) : ℝ)) := by
  have h := claim_C2_nearest_candidate [⟨0, 0, 0⟩] [⟨0, 0, 0⟩, ⟨0, 1, 0⟩] 0 1
    (by with_unfolding_all decide) (by decide) (by with_unfolding_all decide)
  have e1 : (matchExamples [(⟨0, 0, 0⟩ : Example)]
      [⟨0, 0, 0⟩, ⟨0, 1, 0⟩]).1.getD 0 0 = 0 := by
    with_unfolding_all decide
  have e2 : (matchExamples [(⟨0, 0, 0⟩ : Example)]
      [⟨0, 0, 0⟩, ⟨0, 1, 0⟩]).2.getD 0 0 = 0 := by
    with_unfolding_all decide
  rw [e1, e2] at h
  simpa using h

/-- Counterexample to claim C3: a CNN example whose only same-timestamp
candidate lies at planar distance exactly `MAX_DISTANCE_DEG = 1` degree
IS matched: `numpy.min(these_distances_deg) > MAX_DISTANCE_DEG` is false
at equality, so the `continue` is not taken.  The claim asserts no match
is produced at distance exactly 1. -/
theorem claim_C3_counterexample :
    matchExamples [⟨0, 0, 0⟩] [⟨0, 1, 0⟩] = ([0], [0]) ∧
    candDistSq ⟨0, 0, 0⟩ ⟨0, 1, 0⟩ = MAX_DISTANCE_DEG ^ 2 ∧
    Real.sqrt ((candDistSq ⟨0, 0, 0⟩ ⟨0, 1, 0⟩ : ℚ) : ℝ) =
      ((MAX_DISTANCE_DEG : ℚ) : ℝ) := by
  refine ⟨by with_unfolding_all decide, by with_unfolding_all decide, ?_⟩
  have h : candDistSq ⟨0, 0, 0⟩ ⟨0, 1, 0⟩ = 1 := by with_unfolding_all decide
  rw [h, show (MAX_DISTANCE_DEG : ℚ) = 1 from rfl]
  norm_num

/-- Claim C3 as amended: a CNN example `i` is matched by
`_match_examples` iff some SHIPS candidate shares its init time and lies
at planar distance at most (not strictly below) `MAX_DISTANCE_DEG`; in
particular a nearest candidate at distance exactly 1 degree does produce
a match. -/
theorem claim_C3_amended_threshold (cnn ships : List Example) (i : ℕ)
    (hi : i < cnn.length) :
    i ∈ (matchExamples cnn ships).1 ↔
      ∃ j, j < ships.length ∧
        (ships.getD j default).initTime = (cnn.getD i default).initTime ∧
        min
          (Real.sqrt ((distSq (cnn.getD i default).latitude
            (convert_lng_positive_in_west (cnn.getD i default).longitude)
            (ships.getD j default).latitude
            (convert_lng_positive_in_west
              (ships.getD j default).longitude) : ℚ) : ℝ))
          (Real.sqrt ((distSq (cnn.getD i default).latitude
            (convert_lng_negative_in_west (cnn.getD i default).longitude)
            (ships.getD j default).latitude
            (convert_lng_negative_in_west
              (ships.getD j default).longitude) : ℚ) : ℝ)) ≤
          ((MAX_DISTANCE_DEG : ℚ) : ℝ) := by
  rw [mem_matchExamples_fst]
  constructor
  · rintro ⟨-, hsome⟩
    obtain ⟨j, hj, hle⟩ := matchOne_isSome_iff.1 hsome
    obtain ⟨hjlen, ht⟩ := mem_candidateIndices.1 hj
    exact ⟨j, hjlen, ht, sqrt_min_le_max_iff.2 hle⟩
  · rintro ⟨j, hjlen, ht, hle⟩
    refine ⟨hi, matchOne_isSome_iff.2
      ⟨j, mem_candidateIndices.2 ⟨hjlen, ht⟩, ?_⟩⟩
    exact sqrt_min_le_max_iff.1 hle

theorem claim_C3_amended_witness :
    0 ∈ (matchExamples [(⟨0, 0, 0⟩ : Example)] [⟨0, 1, 0⟩]).1 :=
  (claim_C3_amended_threshold [⟨0, 0, 0⟩] [⟨0, 1, 0⟩] 0 (by decide)).2
    ⟨0, by decide, by decide,
      sqrt_min_le_max_iff.2 (by with_unfolding_all decide)⟩

/-- Claim C4: `_match_examples` is deterministic and stateless — equal
input dictionaries give equal output index pairs — and a tie in the
candidate distances is broken toward the first (smallest) minimizing
candidate index: every candidate with a smaller index than the chosen one
has strictly larger candidate distance. -/
theorem claim_C4_deterministic_first_tie (cnn ships cnn' ships' :
    List Example) (k : ℕ) (h1 : cnn = cnn') (h2 : ships = ships')
    (hk : k < (matchExamples cnn ships).1.length) :
    matchExamples cnn ships = matchExamples cnn' ships' ∧
    (∀ j' ∈ candidateIndices
        (cnn.getD ((matchExamples cnn ships).1.getD k 0) default).initTime
        ships,
      j' < (matchExamples cnn ships).2.getD k 0 →
      candDistSq (cnn.getD ((matchExamples cnn ships).1.getD k 0) default)
          (ships.getD ((matchExamples cnn ships).2.getD k 0) default) <
        candDistSq (cnn.getD ((matchExamples cnn ships).1.getD k 0) default)
          (ships.getD j' default)) := by
  subst h1
  subst h2
  refine ⟨rfl, ?_⟩
  intro j' hj' hlt
  exact matchOne_some_first (matchExamples_pair hk) j' hj' hlt

theorem claim_C4_witness :
    matchExamples [(⟨0, 0, 0⟩ : Example)] [⟨0, 5, 0⟩, ⟨0, 0, 0⟩] =
      matchExamples [(⟨0, 0, 0⟩ : Example)] [⟨0, 5, 0⟩, ⟨0, 0, 0⟩] ∧
    (∀ j' ∈ candidateIndices
        (([(⟨0, 0, 0⟩ : Example)]).getD
          ((matchExamples [(⟨0, 0, 0⟩ : Example)]
            [⟨0, 5, 0⟩, ⟨0, 0, 0⟩]).1.getD 0 0) default).initTime
        [⟨0, 5, 0⟩, ⟨0, 0, 0⟩],
      j' < (matchExamples [(⟨0, 0, 0⟩ : Example)]
          [⟨0, 5, 0⟩, ⟨0, 0, 0⟩]).2.getD 0 0 →
      candDistSq (([(⟨0, 0, 0⟩ : Example)]).getD
          ((matchExamples [(⟨0, 0, 0⟩ : Example)]
            [⟨0, 5, 0⟩, ⟨0, 0, 0⟩]).1.getD 0 0) default)
          (([(⟨0, 5, 0⟩ : Example), ⟨0, 0, 0⟩]).getD
            ((matchExamples [(⟨0, 0, 0⟩ : Example)]
              [⟨0, 5, 0⟩, ⟨0, 0, 0⟩]).2.getD 0 0) default) <
        candDistSq (([(⟨0, 0, 0⟩ : Example)]).getD
          ((matchExamples [(⟨0, 0, 0⟩ : Example)]
            [⟨0, 5, 0⟩, ⟨0, 0, 0⟩]).1.getD 0 0) default)
          (([(⟨0, 5, 0⟩ : Example), ⟨0, 0, 0⟩]).getD j' default)) :=
  claim_C4_deterministic_first_tie [⟨0, 0, 0⟩] [⟨0, 5, 0⟩, ⟨0, 0, 0⟩]
    [⟨0, 0, 0⟩] [⟨0, 5, 0⟩, ⟨0, 0, 0⟩] 0 rfl rfl
    (by with_unfolding_all decide)

/-- Claim C8: the outputs of `_match_examples` always satisfy:
`cnn_indices` and `ships_indices` have equal length `E` with
`E ≤ len(cnn)`; `cnn_indices` is strictly increasing (hence without
duplicates — each CNN example is matched to 0 or 1 SHIPS examples); every
entry of `ships_indices` is a valid SHIPS index; and for every `k < E`,
`cnn_indices[k]` was matched to `ships_indices[k]`. -/
theorem claim_C8_output_invariants (cnn ships : List Example) :
    (matchExamples cnn ships).2.length = (matchExamples cnn ships).1.length ∧
    (matchExamples cnn ships).1.length ≤ cnn.length ∧
    (matchExamples cnn ships).1.Pairwise (· < ·) ∧
    (∀ j ∈ (matchExamples cnn ships).2, j < ships.length) ∧
    (∀ k, k < (matchExamples cnn ships).1.length →
      matchOneExample (cnn.getD ((matchExamples cnn ships).1.getD k 0) default)
        ships = some ((matchExamples cnn ships).2.getD k 0)) := by
  refine ⟨matchExamples_snd_length cnn ships,
    matchExamples_fst_length_le cnn ships,
    matchExamples_fst_pairwise cnn ships, ?_, fun k hk => matchExamples_pair hk⟩
  intro j hj
  obtain ⟨k, hk, hjk⟩ := List.mem_iff_getElem.1 hj
  have hk1 : k < (matchExamples cnn ships).1.length := by
    rwa [matchExamples_snd_length] at hk
  have hgd : (matchExamples cnn ships).2.getD k 0 = j := by
    rw [List.getD_eq_getElem _ _ hk, hjk]
  have hpair := matchExamples_pair hk1
  rw [hgd] at hpair
  exact (mem_candidateIndices.1 (matchOne_some_mem hpair)).1

theorem claim_C8_witness :
    (matchExamples [(⟨0, 0, 0⟩ : Example), ⟨7, 2, 3⟩]
        [⟨0, 0, 0⟩, ⟨7, 2, 3⟩]).2.length =
      (matchExamples [(⟨0, 0, 0⟩ : Example), ⟨7, 2, 3⟩]
        [⟨0, 0, 0⟩, ⟨7, 2, 3⟩]).1.length ∧
    (matchExamples [(⟨0, 0, 0⟩ : Example), ⟨7, 2, 3⟩]
        [⟨0, 0, 0⟩, ⟨7, 2, 3⟩]).1.length ≤ 2 ∧
    (matchExamples [(⟨0, 0, 0⟩ : Example), ⟨7, 2, 3⟩]
        [⟨0, 0, 0⟩, ⟨7, 2, 3⟩]).1.Pairwise (· < ·) ∧
    (∀ j ∈ (matchExamples [(⟨0, 0, 0⟩ : Example), ⟨7, 2, 3⟩]
        [⟨0, 0, 0⟩, ⟨7, 2, 3⟩]).2, j < 2) ∧
    (∀ k, k < (matchExamples [(⟨0, 0, 0⟩ : Example), ⟨7, 2, 3⟩]
        [⟨0, 0, 0⟩, ⟨7, 2, 3⟩]).1.length →
      matchOneExample (([(⟨0, 0, 0⟩ : Example), ⟨7, 2, 3⟩]).getD
          ((matchExamples [(⟨0, 0, 0⟩ : Example), ⟨7, 2, 3⟩]
            [⟨0, 0, 0⟩, ⟨7, 2, 3⟩]).1.getD k 0) default)
        [⟨0, 0, 0⟩, ⟨7, 2, 3⟩] =
        some ((matchExamples [(⟨0, 0, 0⟩ : Example), ⟨7, 2, 3⟩]
          [⟨0, 0, 0⟩, ⟨7, 2, 3⟩]).2.getD k 0)) :=
  claim_C8_output_invariants [⟨0, 0, 0⟩, ⟨7, 2, 3⟩] [⟨0, 0, 0⟩, ⟨7, 2, 3⟩]

/-! ## Claim theorems for `satellite_io.py` -/

/-- Claim C5: given a cyclone ID accepted by `parse_cyclone_id`,
`find_file` raises `ValueError` iff no file exists — neither in the
preferred format nor, when `allow_other_format` is true, in the alternate
zipped/unzipped format — and `raise_error_if_missing` is true; when
`raise_error_if_missing` is false and no file exists, it returns the
expected file path without raising. -/
theorem claim_C5_find_file_error_iff (isFile parse : String → Bool)
    (d c : String) (pz ao re : Bool) (hp : parse c = true) :
    (∃ e, find_file isFile parse d c pz ao re = .error e) ↔
      re = true ∧ isFile (satellite_file_path d c pz) = false ∧
        (ao = true → isFile (satellite_file_path d c (!pz)) = false) := by
  unfold find_file satellite_file_path
  rw [hp]
  cases pz <;> cases ao <;> cases re <;>
    by_cases h1 : isFile (satellite_file_base d c) <;>
    by_cases h2 : isFile (satellite_file_base d c ++ ".gz") <;>
    simp [h1, h2]

theorem claim_C5_witness :
    ∃ e, find_file (fun _ => false) (fun _ => true) "d" "2005AL12"
      true true true = .error e :=
  (claim_C5_find_file_error_iff (fun _ => false) (fun _ => true) "d"
    "2005AL12" true true true rfl).2 ⟨rfl, rfl, fun _ => rfl⟩

/-- Claim C6: the validation prefix of `plot_2d_grid_regular` raises an
error whenever the brightness-temperature matrix is not exactly
`M`-by-`N` for `M = len(latitudes)`, `N = len(longitudes)`; and when the
shape is right, the latitudes strictly increasing, and the longitudes
(after negative-in-west conversion) strictly increasing, the shape check
raises no error. -/
theorem claim_C6_plot2d_shape_checks (temps : List (List ℚ))
    (lats lons : List ℚ) :
    (matrixShapeOk temps lats lons = false →
      ∃ e, plot_2d_grid_regular_checks temps lats lons = .error e) ∧
    (matrixShapeOk temps lats lons = true →
      strictlyIncreasing lats = true →
      strictlyIncreasing (lons.map convert_lng_negative_in_west) = true →
      plot_2d_grid_regular_checks temps lats lons ≠
        .error PlotCheckError.badShape) := by
  unfold plot_2d_grid_regular_checks
  constructor
  · intro hbad
    by_cases h1 : validLatitudes lats
    · by_cases h2 : strictlyIncreasing lats
      · by_cases h3 :
          strictlyIncreasing (lons.map convert_lng_negative_in_west)
        · simp [h1, h2, h3, hbad]
        · simp [h1, h2, h3]
      · simp [h1, h2]
    · simp [h1]
  · intro hshape hlat hlon
    by_cases h1 : validLatitudes lats
    · by_cases h4 : temps.all fun row => row.all fun x => decide (0 < x)
      · simp [h1, hlat, hlon, hshape, h4]
      · simp [h1, hlat, hlon, hshape, h4]
    · simp [h1]

theorem claim_C6_witness :
    plot_2d_grid_regular_checks [[(1 : ℚ)]] [0] [0] ≠
      .error PlotCheckError.badShape :=
  (claim_C6_plot2d_shape_checks [[(1 : ℚ)]] [0] [0]).2
    (by with_unfolding_all decide) (by with_unfolding_all decide)
    (by with_unfolding_all decide)

/-- Counterexample to claim C7: `find_cyclones` wraps the per-file cyclone
ID parse in `try: ... except: pass`, so a file matching the glob pattern
whose ID fails `parse_cyclone_id` (here the second file, whose ID the
`parse` oracle rejects) is silently skipped — `find_cyclones` still
returns successfully, with no eager error. -/
theorem claim_C7_counterexample :
    file_name_to_cyclone_id (fun s => s == "2005AL12")
        "d/cira_satellite_2005AL00.nc" = none ∧
    find_cyclones (fun s => s == "2005AL12")
        ["d/cira_satellite_2005AL12.nc", "d/cira_satellite_2005AL00.nc"] true
      = .ok ["2005AL12"] :=
  ⟨by with_unfolding_all decide, by with_unfolding_all decide⟩

/-- Claim C7 as amended: files whose cyclone ID cannot be parsed are
silently skipped (the returned list holds exactly the successfully parsed
IDs), and `find_cyclones` raises `ValueError` exactly when no cyclone ID
at all was parsed and `raise_error_if_all_missing` is true. -/
theorem claim_C7_amended_silent_skip (parse : String → Bool)
    (files : List String) (flag : Bool) :
    ((∃ e, find_cyclones parse files flag = .error e) ↔
      flag = true ∧ files.filterMap (file_name_to_cyclone_id parse) = []) ∧
    (∀ ids, find_cyclones parse files flag = .ok ids →
      ∀ cid, cid ∈ ids ↔
        cid ∈ files.filterMap (file_name_to_cyclone_id parse)) := by
  have hempty : (List.insertionSort (· ≤ ·)
      (files.filterMap (file_name_to_cyclone_id parse)).dedup).isEmpty = true ↔
      files.filterMap (file_name_to_cyclone_id parse) = [] := by
    rw [List.isEmpty_iff, ← List.length_eq_zero, List.length_insertionSort,
      List.length_eq_zero, List.dedup_eq_nil]
  have hmem : ∀ cid, cid ∈ List.insertionSort (· ≤ ·)
      (files.filterMap (file_name_to_cyclone_id parse)).dedup ↔
      cid ∈ files.filterMap (file_name_to_cyclone_id parse) := by
    intro cid
    rw [(List.perm_insertionSort (· ≤ ·) _).mem_iff, List.mem_dedup]
  constructor
  · unfold find_cyclones
    cases flag with
    | false => simp
    | true =>
      by_cases he : (List.insertionSort (· ≤ ·)
          (files.filterMap (file_name_to_cyclone_id parse)).dedup).isEmpty
      · simp only [he, Bool.and_true, Bool.true_and, if_true]
        simp [hempty.1 he]
      · simp only [he, Bool.and_false, Bool.true_and, if_false]
        simp only [Bool.false_eq_true, if_false]
        constructor
        · rintro ⟨e, h⟩
          cases h
        · rintro ⟨-, hnil⟩
          exact absurd (hempty.2 hnil) he
  · intro ids hok cid
    unfold find_cyclones at hok
    by_cases hc : (flag && (List.insertionSort (· ≤ ·)
        (files.filterMap (file_name_to_cyclone_id parse)).dedup).isEmpty)
    · rw [if_pos hc] at hok
      cases hok
    · rw [if_neg hc] at hok
      have hids : ids = List.insertionSort (· ≤ ·)
          (files.filterMap (file_name_to_cyclone_id parse)).dedup := by
        cases hok
        rfl
      rw [hids]
      exact hmem cid

theorem claim_C7_amended_witness :
    ∃ e, find_cyclones (fun _ => false) ["a"] true = .error e :=
  (claim_C7_amended_silent_skip (fun _ => false) ["a"] true).1.2
    ⟨rfl, by with_unfolding_all decide⟩

/-! ## Lemmas on `_grid_points_to_edges` -/

theorem chain'_of_getD {l : List ℚ}
    (h : ∀ i, i + 1 < l.length → l.getD i 0 < l.getD (i + 1) 0) :
    List.Chain' (· < ·) l := by
  rw [List.chain'_iff_get]
  intro i hi
  have h1 : i < l.length := by omega
  have h2 : i + 1 < l.length := by omega
  have hlt := h i h2
  rw [List.getD_eq_getElem _ _ h1, List.getD_eq_getElem _ _ h2] at hlt
  simpa [List.get_eq_getElem] using hlt

theorem getD_lt_of_chain' {l : List ℚ} (h : List.Chain' (· < ·) l) {i : ℕ}
    (hi : i + 1 < l.length) : l.getD i 0 < l.getD (i + 1) 0 := by
  have h1 : i < l.length := by omega
  have hlt := List.chain'_iff_get.1 h i (by omega)
  rw [List.getD_eq_getElem _ _ h1, List.getD_eq_getElem _ _ hi]
  simpa [List.get_eq_getElem] using hlt

theorem gpe_single {q : List ℚ} (h : q.length = 1) :
    gridPointsToEdges q = [] := by
  obtain ⟨a, ha⟩ : ∃ a, q = [a] := by
    cases q with
    | nil => simp at h
    | cons x xs =>
      cases xs with
      | nil => exact ⟨x, rfl⟩
      | cons y ys => simp at h
  subst ha
  rfl

theorem gpe_length {p : List ℚ} (h : 2 ≤ p.length) :
    (gridPointsToEdges p).length = p.length + 1 := by
  simp only [gridPointsToEdges, if_pos h, List.length_append,
    List.length_map, List.length_range, List.length_singleton]
  omega

theorem gpe_getD_zero {p : List ℚ} (h : 2 ≤ p.length) :
    (gridPointsToEdges p).getD 0 0 =
      p.getD 0 0 - (p.getD 1 0 - p.getD 0 0) / 2 := by
  simp only [gridPointsToEdges, if_pos h, List.append_assoc,
    List.singleton_append, List.cons_append, List.nil_append,
    List.getD_cons_zero]

theorem gpe_getD_mid {p : List ℚ} {k : ℕ} (h : 2 ≤ p.length)
    (hk : k + 1 < p.length) :
    (gridPointsToEdges p).getD (k + 1) 0 =
      (p.getD k 0 + p.getD (k + 1) 0) / 2 := by
  have hmlen : k < (List.map (fun j => (p.getD j 0 + p.getD (j + 1) 0) / 2)
      (List.range (p.length - 1))).length := by
    rw [List.length_map, List.length_range]
    omega
  simp only [gridPointsToEdges, if_pos h, List.append_assoc,
    List.singleton_append, List.cons_append, List.nil_append,
    List.getD_cons_succ]
  rw [List.getD_append _ _ _ _ hmlen]
  rw [List.getD_eq_getElem _ _ hmlen, List.getElem_map, List.getElem_range]

theorem gpe_getD_last {p : List ℚ} (h : 2 ≤ p.length) :
    (gridPointsToEdges p).getD p.length 0 =
      p.getD (p.length - 1) 0 +
        (p.getD (p.length - 1) 0 - p.getD (p.length - 2) 0) / 2 := by
  obtain ⟨m, hm⟩ : ∃ m, p.length = m + 2 := ⟨p.length - 2, by omega⟩
  simp only [gridPointsToEdges, if_pos h, List.append_assoc,
    List.singleton_append, List.cons_append, List.nil_append]
  rw [hm]
  rw [show m + 2 = (m + 1) + 1 from rfl, List.getD_cons_succ]
  have hge : (List.map (fun j => (p.getD j 0 + p.getD (j + 1) 0) / 2)
      (List.range (m + 1 + 1 - 1))).length ≤ m + 1 := by
    rw [List.length_map, List.length_range]
    omega
  rw [List.getD_append_right _ _ _ _ hge]
  simp [List.length_map, List.length_range]

theorem gpe_chain {p : List ℚ} (h : 2 ≤ p.length)
    (hmono : List.Chain' (· < ·) p) :
    List.Chain' (· < ·) (gridPointsToEdges p) := by
  apply chain'_of_getD
  intro i hi
  rw [gpe_length h] at hi
  by_cases hi0 : i = 0
  · subst hi0
    rw [gpe_getD_zero h, gpe_getD_mid h (by omega)]
    have h01 := getD_lt_of_chain' hmono (show 0 + 1 < p.length by omega)
    linarith
  · by_cases hilast : i + 1 = p.length
    · obtain ⟨k, hk⟩ : ∃ k, i = k + 1 := ⟨i - 1, by omega⟩
      subst hk
      have hplen : p.length = k + 3 ∨ p.length = k + 2 := by omega
      rw [show k + 1 + 1 = p.length from hilast, gpe_getD_last h,
        gpe_getD_mid h (by omega)]
      rw [show p.length - 1 = k + 1 by omega, show p.length - 2 = k by omega]
      have ha := getD_lt_of_chain' hmono (show k + 1 < p.length by omega)
      linarith
    · obtain ⟨k, hk⟩ : ∃ k, i = k + 1 := ⟨i - 1, by omega⟩
      subst hk
      have hk2 : k + 1 + 1 < p.length := by omega
      rw [gpe_getD_mid h (by omega), gpe_getD_mid h hk2]
      have ha := getD_lt_of_chain' hmono (show k + 1 < p.length by omega)
      have hb := getD_lt_of_chain' hmono hk2
      linarith

/-! ## Claim theorems for `satellite_plotting.py` -/

/-- Claim C9: for a strictly increasing coordinate array of length
`P ≥ 2`, `_grid_points_to_edges` returns `P + 1` strictly increasing
edge coordinates: the interior entries are the midpoints of consecutive
grid points, the first entry is `p[0] - (p[1] - p[0]) / 2`, and the last
is `p[P-1] + (p[P-1] - p[P-2]) / 2`; for `P = 1` the returned array is
empty rather than of length 2 (numpy broadcasting with the empty `diff`
makes both end pieces empty). -/
theorem claim_C9_grid_points_to_edges (p : List ℚ) (hlen : 2 ≤ p.length)
    (hmono : List.Chain' (· < ·) p) :
    (gridPointsToEdges p).length = p.length + 1 ∧
    (gridPointsToEdges p).getD 0 0 =
      p.getD 0 0 - (p.getD 1 0 - p.getD 0 0) / 2 ∧
    (∀ k, k + 1 < p.length →
      (gridPointsToEdges p).getD (k + 1) 0 =
        (p.getD k 0 + p.getD (k + 1) 0) / 2) ∧
    (gridPointsToEdges p).getD p.length 0 =
      p.getD (p.length - 1) 0 +
        (p.getD (p.length - 1) 0 - p.getD (p.length - 2) 0) / 2 ∧
    List.Chain' (· < ·) (gridPointsToEdges p) ∧
    (∀ q : List ℚ, q.length = 1 → gridPointsToEdges q = []) :=
  ⟨gpe_length hlen, gpe_getD_zero hlen, fun _ hk => gpe_getD_mid hlen hk,
    gpe_getD_last hlen, gpe_chain hlen hmono, fun _ hq => gpe_single hq⟩

theorem claim_C9_witness :
    (gridPointsToEdges [0, 1, 2]).length = ([(0 : ℚ), 1, 2]).length + 1 ∧
    (gridPointsToEdges [0, 1, 2]).getD 0 0 =
      ([(0 : ℚ), 1, 2]).getD 0 0 -
        (([(0 : ℚ), 1, 2]).getD 1 0 - ([(0 : ℚ), 1, 2]).getD 0 0) / 2 ∧
    (∀ k, k + 1 < ([(0 : ℚ), 1, 2]).length →
      (gridPointsToEdges [0, 1, 2]).getD (k + 1) 0 =
        (([(0 : ℚ), 1, 2]).getD k 0 + ([(0 : ℚ), 1, 2]).getD (k + 1) 0) / 2) ∧
    (gridPointsToEdges [0, 1, 2]).getD ([(0 : ℚ), 1, 2]).length 0 =
      ([(0 : ℚ), 1, 2]).getD (([(0 : ℚ), 1, 2]).length - 1) 0 +
        (([(0 : ℚ), 1, 2]).getD (([(0 : ℚ), 1, 2]).length - 1) 0 -
          ([(0 : ℚ), 1, 2]).getD (([(0 : ℚ), 1, 2]).length - 2) 0) / 2 ∧
    List.Chain' (· < ·) (gridPointsToEdges [0, 1, 2]) ∧
    (∀ q : List ℚ, q.length = 1 → gridPointsToEdges q = []) :=
  claim_C9_grid_points_to_edges [0, 1, 2] (by decide)
    (by norm_num [List.chain'_cons, List.chain'_singleton])

/-- Claim C10: for all inputs — including negative, zero, or out-of-order
bounds — the contour bounds returned by `plot_saliency` and
`plot_class_activation` satisfy `min ≥ 1e-6` (`TOLERANCE`) and
`max ≥ min + 1e-6`, hence `min < max`. -/
theorem claim_C10_contour_bounds (a b a' b' : ℚ) :
    TOLERANCE ≤ (plot_saliency_contour_bounds a b).1 ∧
    (plot_saliency_contour_bounds a b).1 + TOLERANCE ≤
      (plot_saliency_contour_bounds a b).2 ∧
    (plot_saliency_contour_bounds a b).1 <
      (plot_saliency_contour_bounds a b).2 ∧
    TOLERANCE ≤ (plot_class_activation_contour_bounds a' b').1 ∧
    (plot_class_activation_contour_bounds a' b').1 + TOLERANCE ≤
      (plot_class_activation_contour_bounds a' b').2 ∧
    (plot_class_activation_contour_bounds a' b').1 <
      (plot_class_activation_contour_bounds a' b').2 := by
  have htol : (0 : ℚ) < TOLERANCE := by norm_num [TOLERANCE]
  unfold plot_saliency_contour_bounds plot_class_activation_contour_bounds
  refine ⟨le_max_right _ _, le_max_right _ _, ?_, le_max_right _ _,
    le_max_right _ _, ?_⟩ <;>
    exact lt_of_lt_of_le (lt_add_of_pos_right _ htol) (le_max_right _ _)

end Ml4tc
